import Mathlib

/-!
Shallow embedding of `src/libs/cards.py`: the `Card` value type with its
validation, comparison and display contract, and the `CardStack` container
with its push/pop discipline, together with the `set_shuffled_cards`
population routine.
-/

/-- Suit-name table `SUIT_NAMES` from the source: keys 1-4 map to suit names. -/
def SUIT_NAMES : List (Int × String) :=
  [(1, "club"), (2, "diamond"), (3, "heart"), (4, "spade")]

/-- `JOKER_SUIT` constant from the source. -/
def JOKER_SUIT : Int := 5

/-- Rank-character table `RANK_CHARS` from the source: digit characters for
ranks 2-9, then T, J, Q, K, A for 10-14. -/
def RANK_CHARS : List (Int × String) :=
  [(2, "2"), (3, "3"), (4, "4"), (5, "5"), (6, "6"), (7, "7"), (8, "8"),
   (9, "9"), (10, "T"), (11, "J"), (12, "Q"), (13, "K"), (14, "A")]

/-- `JOKER_RANK` constant from the source. -/
def JOKER_RANK : Int := 15

/-- Python `dict.get(k, dflt)` over an association list. -/
def dictGet (d : List (Int × String)) (k : Int) (dflt : String) : String :=
  match d.find? (fun p => p.1 == k) with
  | some p => p.2
  | none => dflt

/-- Python `min(d.keys())` for a nonempty dict (0 is a dummy for the empty
case, unreachable for the two tables of the source). -/
def minKey (d : List (Int × String)) : Int :=
  match d.map Prod.fst with
  | [] => 0
  | x :: xs => xs.foldl min x

/-- Python `max(d.keys())` for a nonempty dict. -/
def maxKey (d : List (Int × String)) : Int :=
  match d.map Prod.fst with
  | [] => 0
  | x :: xs => xs.foldl max x

/-- The `Card` dataclass: an immutable suit/rank pair.  Field defaults mirror
`suit: int = JOKER_SUIT`, `rank: int = JOKER_RANK`. -/
structure Card where
  suit : Int := JOKER_SUIT
  rank : Int := JOKER_RANK
  deriving DecidableEq, Repr

/-- `Card.__post_init__` validation: `Except.error` models `raise ValueError`.
The bounds are `min(SUIT_NAMES) <= suit <= JOKER_SUIT` and
`min(RANK_CHARS) <= rank <= JOKER_RANK`, suit checked first. -/
def mkCard (suit : Int := JOKER_SUIT) (rank : Int := JOKER_RANK) :
    Except String Card :=
  let min_suit := minKey SUIT_NAMES
  let min_rank := minKey RANK_CHARS
  if ¬ (min_suit ≤ suit ∧ suit ≤ JOKER_SUIT) then
    Except.error "Suit range from 1 to 5"
  else if ¬ (min_rank ≤ rank ∧ rank ≤ JOKER_RANK) then
    Except.error "Rank range from 2 to 15"
  else
    Except.ok { suit := suit, rank := rank }

/-- A card is valid exactly when `__post_init__` accepts its fields
(`1 <= suit <= 5` and `2 <= rank <= 15`). -/
def Card.valid (c : Card) : Prop :=
  1 ≤ c.suit ∧ c.suit ≤ 5 ∧ 2 ≤ c.rank ∧ c.rank ≤ 15

instance : DecidablePred Card.valid := fun c => by
  unfold Card.valid
  infer_instance

/-- `Card.suit_name`: `SUIT_NAMES.get(self.suit, 'joker')`. -/
def Card.suit_name (c : Card) : String :=
  dictGet SUIT_NAMES c.suit "joker"

/-- `Card.rank_char`: `RANK_CHARS.get(self.rank, '')`. -/
def Card.rank_char (c : Card) : String :=
  dictGet RANK_CHARS c.rank ""

/-- `Card.__eq__` between two cards: `self.rank == other.rank`
(the `isinstance` guard cannot fire between two cards). -/
def Card.eq (a b : Card) : Bool :=
  a.rank == b.rank

/-- `Card.__lt__` between two cards:
`self.suit < other.suit if self == other else self.rank < other.rank`. -/
def Card.lt (a b : Card) : Bool :=
  if Card.eq a b then decide (a.suit < b.suit) else decide (a.rank < b.rank)

/-- `Card.__gt__` between two cards:
`self.suit > other.suit if self == other else self.rank > other.rank`. -/
def Card.gt (a b : Card) : Bool :=
  if Card.eq a b then decide (a.suit > b.suit) else decide (a.rank > b.rank)

/-- `Card.__str__`:
`self.suit_name[0] + self.rank_char if self.rank_char else 'JK'`.
Python string indexing `s[0]` is the one-character string holding the first
character, modelled as `String.mk (s.toList.take 1)`. -/
def Card.str (c : Card) : String :=
  if c.rank_char = "" then "JK"
  else String.mk (c.suit_name.toList.take 1) ++ c.rank_char

/-- `CardStack` state: the private list `__card_stack`, tail = top. -/
def CardStack.push_card (s : List Card) (c : Card) : List Card :=
  s ++ [c]

/-- `CardStack.pop_card`:
`self.__card_stack.pop() if self.__card_stack else None`.
Returns the popped value (`none` is the empty signal) and the new state. -/
def CardStack.pop_card (s : List Card) : Option Card × List Card :=
  if s.isEmpty then (none, s) else (s.getLast?, s.dropLast)

/-- Modelled from the spec: the `isEmpty()` accessor ("reports whether any
cards remain") is not a method of `CardStack` in the source; it is the
truthiness existence check `if self.__card_stack` that `pop_card` performs
on the same list. -/
def CardStack.is_empty (s : List Card) : Bool :=
  s.isEmpty

/-- Repeated `pop_card` until the empty signal, as the demonstration loop
drains a deck. -/
def CardStack.drain (s : List Card) : List Card :=
  if s.isEmpty then s
  else CardStack.drain (CardStack.pop_card s).2
termination_by s.length
decreasing_by
  simp only [CardStack.pop_card]
  simp_all [List.isEmpty_iff, List.length_dropLast]
  cases s with
  | nil => simp_all
  | cons a t => simp [Nat.lt_succ_iff]

/-- The `JokerSet` enum. -/
inductive JokerSet
  | includes
  | excludes
  deriving DecidableEq

/-- Python `range(a, b)` over integers, as a list. -/
def pyRange (a b : Int) : List Int :=
  (List.range (b - a).toNat).map (fun (n : Nat) => a + (n : Int))

/-- The 52-combination list built by `set_shuffled_cards` before the joker is
appended: `itertools.product(range(min_suit, max_suit + 1),
range(min_rank, max_rank + 1))`, suit-major. -/
def standardCards : List Card :=
  (pyRange (minKey SUIT_NAMES) (maxKey SUIT_NAMES + 1)).flatMap
    (fun suit => (pyRange (minKey RANK_CHARS) (maxKey RANK_CHARS + 1)).map
      (fun rank => { suit := suit, rank := rank }))

/-- `Card()`: default construction, yielding suit `JOKER_SUIT` and rank
`JOKER_RANK` from the field defaults. -/
def jokerCard : Card := {}

/-- The card list of `set_shuffled_cards` just before shuffling:
`cards.append(Card())` exactly when `joker_set == JokerSet.includes`. -/
def deckCards (joker_set : JokerSet) : List Card :=
  if joker_set = JokerSet.includes then standardCards ++ [jokerCard] else standardCards

/-- `set_shuffled_cards(deck, joker_set)`: builds the card list, shuffles it
(`random.shuffle` is modelled as an arbitrary permutation-producing function
passed as a parameter), then pushes every card in order into the deck. -/
def set_shuffled_cards (shuffle : List Card → List Card) (deck : List Card)
    (joker_set : JokerSet := JokerSet.includes) : List Card :=
  List.foldl CardStack.push_card deck (shuffle (deckCards joker_set))

/-! Helper lemmas. -/

theorem minKey_suits : minKey SUIT_NAMES = 1 := by decide

theorem maxKey_suits : maxKey SUIT_NAMES = 4 := by decide

theorem minKey_ranks : minKey RANK_CHARS = 2 := by decide

theorem maxKey_ranks : maxKey RANK_CHARS = 14 := by decide

theorem mem_pyRange {a b x : Int} : x ∈ pyRange a b ↔ a ≤ x ∧ x < b := by
  unfold pyRange
  rw [List.mem_map]
  constructor
  · rintro ⟨n, hn, rfl⟩
    rw [List.mem_range] at hn
    omega
  · intro h
    refine ⟨(x - a).toNat, ?_, by omega⟩
    rw [List.mem_range]
    omega

theorem mem_standardCards {c : Card} :
    c ∈ standardCards ↔ 1 ≤ c.suit ∧ c.suit ≤ 4 ∧ 2 ≤ c.rank ∧ c.rank ≤ 14 := by
  obtain ⟨s, r⟩ := c
  simp only [standardCards, minKey_suits, maxKey_suits, minKey_ranks, maxKey_ranks,
    List.mem_flatMap, List.mem_map, mem_pyRange, Card.mk.injEq]
  constructor
  · rintro ⟨s, hs, r, hr, rfl, rfl⟩
    omega
  · intro h
    exact ⟨s, by omega, r, by omega, rfl, rfl⟩

theorem foldl_push_card (l acc : List Card) :
    List.foldl CardStack.push_card acc l = acc ++ l := by
  induction l generalizing acc with
  | nil => simp
  | cons c t ih => simp [CardStack.push_card, ih]

theorem drain_eq_nil_aux (n : Nat) :
    ∀ s : List Card, s.length ≤ n → CardStack.drain s = [] := by
  induction n with
  | zero =>
    intro s h
    obtain rfl : s = [] := by cases s <;> simp_all
    rw [CardStack.drain]
    simp
  | succ n ih =>
    intro s h
    rw [CardStack.drain]
    cases s with
    | nil => simp
    | cons a t =>
      have he : (a :: t).isEmpty = false := by simp
      rw [he]
      simp only [Bool.false_eq_true, if_false, CardStack.pop_card, he]
      exact ih _ (by simp [List.length_dropLast] at h ⊢; omega)

theorem drain_eq_nil (s : List Card) : CardStack.drain s = [] :=
  drain_eq_nil_aux s.length s le_rfl

theorem deckCards_nodup_includes : (deckCards JokerSet.includes).Nodup := by decide

theorem deckCards_nodup_excludes : (deckCards JokerSet.excludes).Nodup := by decide

/-! Claim theorems. -/

/-- C1 counterexample: at `a = Card(1,10)` and `b = Card(4,10)` both Equality
(rank-only) and LessThan (suit tie-break) hold, so "exactly one of
Equality, LessThan, GreaterThan" fails for this valid pair. -/
theorem c1_exactly_one_counterexample :
    ¬ ((Card.eq { suit := 1, rank := 10 } { suit := 4, rank := 10 } = true
          ∧ Card.lt { suit := 1, rank := 10 } { suit := 4, rank := 10 } = false
          ∧ Card.gt { suit := 1, rank := 10 } { suit := 4, rank := 10 } = false)
      ∨ (Card.eq { suit := 1, rank := 10 } { suit := 4, rank := 10 } = false
          ∧ Card.lt { suit := 1, rank := 10 } { suit := 4, rank := 10 } = true
          ∧ Card.gt { suit := 1, rank := 10 } { suit := 4, rank := 10 } = false)
      ∨ (Card.eq { suit := 1, rank := 10 } { suit := 4, rank := 10 } = false
          ∧ Card.lt { suit := 1, rank := 10 } { suit := 4, rank := 10 } = false
          ∧ Card.gt { suit := 1, rank := 10 } { suit := 4, rank := 10 } = true)) := by
  decide

/-- C1 (amended): for every pair of validly constructed Cards, exactly one of
identity (same suit and same rank), LessThan, GreaterThan holds; rank-only
Equality is not part of the trichotomy, since it also holds whenever
LessThan or GreaterThan is decided by the suit tie-break. -/
theorem c1_identity_lt_gt_trichotomy (a b : Card)
    (ha : a.valid) (hb : b.valid) :
    (a = b ∧ Card.lt a b = false ∧ Card.gt a b = false)
    ∨ (¬ a = b ∧ Card.lt a b = true ∧ Card.gt a b = false)
    ∨ (¬ a = b ∧ Card.lt a b = false ∧ Card.gt a b = true) := by
  obtain ⟨sa, ra⟩ := a
  obtain ⟨sb, rb⟩ := b
  by_cases hr : ra = rb <;>
    simp [Card.lt, Card.gt, Card.eq, Card.mk.injEq, hr] <;>
    omega

/-- C1 witness: the amended trichotomy applied at `Card(1,10)`, `Card(4,10)`. -/
theorem c1_identity_lt_gt_trichotomy_witness :
    Card.valid { suit := 1, rank := 10 } ∧ Card.valid { suit := 4, rank := 10 }
    ∧ ((({ suit := 1, rank := 10 } : Card) = { suit := 4, rank := 10 }
          ∧ Card.lt { suit := 1, rank := 10 } { suit := 4, rank := 10 } = false
          ∧ Card.gt { suit := 1, rank := 10 } { suit := 4, rank := 10 } = false)
      ∨ (¬ ({ suit := 1, rank := 10 } : Card) = { suit := 4, rank := 10 }
          ∧ Card.lt { suit := 1, rank := 10 } { suit := 4, rank := 10 } = true
          ∧ Card.gt { suit := 1, rank := 10 } { suit := 4, rank := 10 } = false)
      ∨ (¬ ({ suit := 1, rank := 10 } : Card) = { suit := 4, rank := 10 }
          ∧ Card.lt { suit := 1, rank := 10 } { suit := 4, rank := 10 } = false
          ∧ Card.gt { suit := 1, rank := 10 } { suit := 4, rank := 10 } = true)) :=
  ⟨by decide, by decide,
    c1_identity_lt_gt_trichotomy _ _ (by decide) (by decide)⟩

/-- C4: for every pair of valid Cards, Equality returns true iff the ranks
match, with the suit ignored; `Card(1,10) == Card(4,10)` is true and
`Card(1,10) == Card(1,11)` is false. -/
theorem c4_equality_rank_only (a b : Card) (ha : a.valid) (hb : b.valid) :
    (Card.eq a b = true ↔ a.rank = b.rank)
    ∧ Card.eq { suit := 1, rank := 10 } { suit := 4, rank := 10 } = true
    ∧ Card.eq { suit := 1, rank := 10 } { suit := 1, rank := 11 } = false := by
  refine ⟨?_, by decide, by decide⟩
  simp [Card.eq]

/-- C4 witness: the rank-only equality applied at `Card(1,10)`, `Card(4,10)`. -/
theorem c4_equality_rank_only_witness :
    Card.valid { suit := 1, rank := 10 } ∧ Card.valid { suit := 4, rank := 10 }
    ∧ ((Card.eq { suit := 1, rank := 10 } { suit := 4, rank := 10 } = true
          ↔ Card.rank { suit := 1, rank := 10 } = Card.rank { suit := 4, rank := 10 })
      ∧ Card.eq { suit := 1, rank := 10 } { suit := 4, rank := 10 } = true
      ∧ Card.eq { suit := 1, rank := 10 } { suit := 1, rank := 11 } = false) :=
  ⟨by decide, by decide, c4_equality_rank_only _ _ (by decide) (by decide)⟩

/-- C5: for every pair of valid Cards, LessThan compares suits when the ranks
are equal and ranks otherwise, GreaterThan is the mirror with `>`;
`Card(1,10) < Card(4,10)` and `Card(4,9) < Card(1,10)` are both true. -/
theorem c5_ordering_tiebreak (a b : Card) (ha : a.valid) (hb : b.valid) :
    (Card.lt a b
      = if a.rank = b.rank then decide (a.suit < b.suit) else decide (a.rank < b.rank))
    ∧ (Card.gt a b
      = if a.rank = b.rank then decide (a.suit > b.suit) else decide (a.rank > b.rank))
    ∧ Card.lt { suit := 1, rank := 10 } { suit := 4, rank := 10 } = true
    ∧ Card.lt { suit := 4, rank := 9 } { suit := 1, rank := 10 } = true := by
  refine ⟨?_, ?_, by decide, by decide⟩
  · by_cases h : a.rank = b.rank <;> simp [Card.lt, Card.eq, h]
  · by_cases h : a.rank = b.rank <;> simp [Card.gt, Card.eq, h]

/-- C5 witness: the ordering contract applied at `Card(1,10)`, `Card(4,10)`. -/
theorem c5_ordering_tiebreak_witness :
    Card.valid { suit := 1, rank := 10 } ∧ Card.valid { suit := 4, rank := 10 }
    ∧ ((Card.lt { suit := 1, rank := 10 } { suit := 4, rank := 10 }
          = if Card.rank { suit := 1, rank := 10 } = Card.rank { suit := 4, rank := 10 }
            then decide (Card.suit { suit := 1, rank := 10 } < Card.suit { suit := 4, rank := 10 })
            else decide (Card.rank { suit := 1, rank := 10 } < Card.rank { suit := 4, rank := 10 }))
      ∧ (Card.gt { suit := 1, rank := 10 } { suit := 4, rank := 10 }
          = if Card.rank { suit := 1, rank := 10 } = Card.rank { suit := 4, rank := 10 }
            then decide (Card.suit { suit := 1, rank := 10 } > Card.suit { suit := 4, rank := 10 })
            else decide (Card.rank { suit := 1, rank := 10 } > Card.rank { suit := 4, rank := 10 }))
      ∧ Card.lt { suit := 1, rank := 10 } { suit := 4, rank := 10 } = true
      ∧ Card.lt { suit := 4, rank := 9 } { suit := 1, rank := 10 } = true) :=
  ⟨by decide, by decide, c5_ordering_tiebreak _ _ (by decide) (by decide)⟩

/-- C10: for every pair of valid Cards, LessThan and GreaterThan are exact
duals: `a < b` holds iff `b > a` holds. -/
theorem c10_lt_gt_dual (a b : Card) (ha : a.valid) (hb : b.valid) :
    Card.lt a b = Card.gt b a := by
  by_cases h : a.rank = b.rank
  · simp [Card.lt, Card.gt, Card.eq, h]
  · have h2 : ¬ b.rank = a.rank := fun hh => h hh.symm
    simp [Card.lt, Card.gt, Card.eq, h, h2]

/-- C10 witness: the duality applied at `Card(1,10)`, `Card(4,11)`. -/
theorem c10_lt_gt_dual_witness :
    Card.valid { suit := 1, rank := 10 } ∧ Card.valid { suit := 4, rank := 11 }
    ∧ Card.lt { suit := 1, rank := 10 } { suit := 4, rank := 11 }
        = Card.gt { suit := 4, rank := 11 } { suit := 1, rank := 10 } :=
  ⟨by decide, by decide, c10_lt_gt_dual _ _ (by decide) (by decide)⟩

/-- C6: `Card(s, r)` construction fails with a value-range error iff `s` is
outside `[1, 5]` or `r` is outside `[2, 15]`; the boundary values suit 1,
suit 5, rank 2 and rank 15 all construct successfully. -/
theorem c6_range_validation :
    (∀ s r : Int,
        (∃ e, mkCard s r = Except.error e) ↔ (s < 1 ∨ 5 < s ∨ r < 2 ∨ 15 < r))
    ∧ mkCard 1 2 = Except.ok { suit := 1, rank := 2 }
    ∧ mkCard 5 15 = Except.ok { suit := 5, rank := 15 }
    ∧ mkCard 1 15 = Except.ok { suit := 1, rank := 15 }
    ∧ mkCard 5 2 = Except.ok { suit := 5, rank := 2 } := by
  refine ⟨?_, rfl, rfl, rfl, rfl⟩
  intro s r
  simp only [mkCard, minKey_suits, minKey_ranks, JOKER_SUIT, JOKER_RANK]
  constructor
  · rintro ⟨e, he⟩
    by_cases h1 : 1 ≤ s ∧ s ≤ 5
    · by_cases h2 : 2 ≤ r ∧ r ≤ 15
      · rw [if_neg (not_not_intro h1), if_neg (not_not_intro h2)] at he
        simp at he
      · omega
    · omega
  · intro h
    by_cases h1 : 1 ≤ s ∧ s ≤ 5
    · by_cases h2 : 2 ≤ r ∧ r ≤ 15
      · exfalso
        omega
      · rw [if_neg (not_not_intro h1), if_pos h2]
        exact ⟨_, rfl⟩
    · rw [if_pos h1]
      exact ⟨_, rfl⟩

/-- C9: for every valid Card the display form is the first character of the
suit name followed by the rank character when the latter is non-empty, and
the literal "JK" otherwise; `Card(3,12)` renders "hQ", `Card(2,14)` renders
"dA", `Card(5,15)` renders "JK", and a default-constructed Card renders
"JK". -/
theorem c9_display_form (c : Card) (h : c.valid) :
    (Card.str c = if c.rank_char = "" then "JK"
      else String.mk (c.suit_name.toList.take 1) ++ c.rank_char)
    ∧ Card.str { suit := 3, rank := 12 } = "hQ"
    ∧ Card.str { suit := 2, rank := 14 } = "dA"
    ∧ Card.str { suit := 5, rank := 15 } = "JK"
    ∧ Card.str jokerCard = "JK" :=
  ⟨rfl, by decide, by decide, by decide, by decide⟩

/-- C9 witness: the display contract applied at `Card(3,12)`. -/
theorem c9_display_form_witness :
    Card.valid { suit := 3, rank := 12 }
    ∧ ((Card.str { suit := 3, rank := 12 }
          = if Card.rank_char { suit := 3, rank := 12 } = "" then "JK"
            else String.mk ((Card.suit_name { suit := 3, rank := 12 }).toList.take 1)
              ++ Card.rank_char { suit := 3, rank := 12 })
      ∧ Card.str { suit := 3, rank := 12 } = "hQ"
      ∧ Card.str { suit := 2, rank := 14 } = "dA"
      ∧ Card.str { suit := 5, rank := 15 } = "JK"
      ∧ Card.str jokerCard = "JK") :=
  ⟨by decide, c9_display_form _ (by decide)⟩

/-- C7: popping an empty stack yields the empty signal (`none`) and leaves the
stack unchanged rather than raising; popping a non-empty stack removes and
returns the most recently pushed (tail) element. -/
theorem c7_pop_empty_signal_and_tail :
    CardStack.pop_card ([] : List Card) = (none, [])
    ∧ ∀ (s : List Card) (c : Card),
        CardStack.pop_card (CardStack.push_card s c) = (some c, s) := by
  refine ⟨rfl, ?_⟩
  intro s c
  have he : (s ++ [c]).isEmpty = false := by simp
  simp [CardStack.pop_card, CardStack.push_card, he, List.getLast?_concat,
    List.dropLast_concat]

/-- C8: pushing `c1`, `c2`, `c3` onto an empty stack and popping three times
returns `c3`, `c2`, `c1` in that order. -/
theorem c8_lifo_roundtrip (c1 c2 c3 : Card) :
    CardStack.pop_card
        (CardStack.push_card (CardStack.push_card (CardStack.push_card [] c1) c2) c3)
      = (some c3, [c1, c2])
    ∧ CardStack.pop_card [c1, c2] = (some c2, [c1])
    ∧ CardStack.pop_card [c1] = (some c1, []) :=
  ⟨rfl, rfl, rfl⟩

/-- C3: the emptiness accessor reports whether any cards remain, and a stack
drained by repeated pops until the empty signal is empty. -/
theorem c3_drained_stack_is_empty (s : List Card) :
    (CardStack.is_empty s = true ↔ s = [])
    ∧ CardStack.is_empty (CardStack.drain s) = true := by
  refine ⟨?_, ?_⟩
  · simp [CardStack.is_empty]
  · simp [CardStack.is_empty, drain_eq_nil s]

/-- C2: for every permutation the shuffle may produce, populating an empty
deck with the joker included pushes exactly 53 cards: every (suit, rank)
pair with suit in [1,4] and rank in [2,14] exactly once plus exactly one
(5,15) card; with the joker excluded it pushes exactly those 52 pairs and no
(5,15) card. -/
theorem c2_population_multiset (shuffle : List Card → List Card)
    (hs : ∀ l, (shuffle l).Perm l) :
    ((set_shuffled_cards shuffle [] JokerSet.includes).length = 53
      ∧ (∀ c : Card, 1 ≤ c.suit → c.suit ≤ 4 → 2 ≤ c.rank → c.rank ≤ 14 →
          (set_shuffled_cards shuffle [] JokerSet.includes).count c = 1)
      ∧ (set_shuffled_cards shuffle [] JokerSet.includes).count
          { suit := 5, rank := 15 } = 1)
    ∧ ((set_shuffled_cards shuffle [] JokerSet.excludes).length = 52
      ∧ (∀ c : Card, 1 ≤ c.suit → c.suit ≤ 4 → 2 ≤ c.rank → c.rank ≤ 14 →
          (set_shuffled_cards shuffle [] JokerSet.excludes).count c = 1)
      ∧ (set_shuffled_cards shuffle [] JokerSet.excludes).count
          { suit := 5, rank := 15 } = 0) := by
  have hperm : ∀ js, (set_shuffled_cards shuffle [] js).Perm (deckCards js) := by
    intro js
    have hset : set_shuffled_cards shuffle [] js = shuffle (deckCards js) := by
      simp [set_shuffled_cards, foldl_push_card]
    rw [hset]
    exact hs _
  refine ⟨⟨?_, ?_, ?_⟩, ?_, ?_, ?_⟩
  · rw [(hperm _).length_eq]
    decide
  · intro c h1 h2 h3 h4
    rw [(hperm _).count_eq]
    refine List.count_eq_one_of_mem deckCards_nodup_includes ?_
    have hm : c ∈ standardCards := mem_standardCards.mpr ⟨h1, h2, h3, h4⟩
    exact List.mem_append_left _ hm
  · rw [(hperm _).count_eq]
    decide
  · rw [(hperm _).length_eq]
    decide
  · intro c h1 h2 h3 h4
    rw [(hperm _).count_eq]
    exact List.count_eq_one_of_mem deckCards_nodup_excludes
      (mem_standardCards.mpr ⟨h1, h2, h3, h4⟩)
  · rw [(hperm _).count_eq]
    decide

/-- C2 witness: the population property applied with the identity permutation
as the shuffle. -/
theorem c2_population_multiset_witness :
    (∀ l : List Card, (id l).Perm l)
    ∧ (((set_shuffled_cards id [] JokerSet.includes).length = 53
      ∧ (∀ c : Card, 1 ≤ c.suit → c.suit ≤ 4 → 2 ≤ c.rank → c.rank ≤ 14 →
          (set_shuffled_cards id [] JokerSet.includes).count c = 1)
      ∧ (set_shuffled_cards id [] JokerSet.includes).count
          { suit := 5, rank := 15 } = 1)
    ∧ ((set_shuffled_cards id [] JokerSet.excludes).length = 52
      ∧ (∀ c : Card, 1 ≤ c.suit → c.suit ≤ 4 → 2 ≤ c.rank → c.rank ≤ 14 →
          (set_shuffled_cards id [] JokerSet.excludes).count c = 1)
      ∧ (set_shuffled_cards id [] JokerSet.excludes).count
          { suit := 5, rank := 15 } = 0)) :=
  ⟨fun l => List.Perm.refl l,
    c2_population_multiset id (fun l => List.Perm.refl l)⟩
